import Mathlib

/-!
Verification development for the grok-cli terminal chat UI.

The definitions below are a shallow embedding of the streaming-update logic
of `src/ui/components/chat-interface.tsx` (the `processInitialMessage`
closure with its `flushUpdates` helper and the `handleRejection` callback)
and of the headless output path of `src/index.ts`
(`processPromptHeadless`).

Modelling conventions:
* JS timestamps (`Date.now()`) are natural numbers; each chunk carries the
  clock value observed when it is processed.
* Optional JS fields are `Option`; a missing boolean field read in a truthy
  position is the default `false`.
* A JS string field that is only ever tested for truthiness before use is
  collapsed to `String`, with `""` standing for both `""` and `undefined`
  (the two are observationally identical in every use site embedded here).
* `JSON.parse` of a tool call's raw `arguments` string is modelled by
  storing the parse result directly: `none` models a string on which
  `JSON.parse` throws, `some args` a successfully parsed object.
* React `setState` calls are explicit state passing on `StreamState`;
  closure-local mutable variables of `processInitialMessage`
  (`streamingEntry`, `accumulatedContent`, `lastTokenCount`,
  `pendingToolCalls`, `pendingToolResults`, `lastUpdateTime`) are fields of
  the same state record.
* The `confirmationOptions` read inside `flushUpdates` is a stale closure
  capture, not the live React state: the field
  `capturedConfirmationOptions` holds that capture (fixed when the
  effect created the closure), while `confirmationOptions` is the live
  state the dialog renders from and `handleConfirmationRequest`,
  `handleConfirmation` and `handleRejection` write to.
-/

/-- Parsed form of a tool call's JSON `arguments` string; only the fields
read by the description logic of `flushUpdates` are retained. -/
structure ToolArgs where
  path : Option String := none
  file_path : Option String := none
  command : Option String := none
  query : Option String := none
deriving DecidableEq

/-- The `function` field of a `GrokToolCall` (`src/grok/client.ts`);
`arguments` holds the modelled parse result of the raw JSON string. -/
structure ToolCallFunction where
  name : String
  arguments : Option ToolArgs := none
deriving DecidableEq

/-- A tool call announced by the agent (`GrokToolCall`). -/
structure GrokToolCall where
  id : String
  function : ToolCallFunction
deriving DecidableEq

/-- Result payload of an executed tool, as read by `flushUpdates`:
`success`, optional `output`, optional `error`. -/
structure ToolResult where
  success : Bool
  output : Option String := none
  error : Option String := none
deriving DecidableEq

/-- The `type` discriminator of a `ChatEntry`. -/
inductive EntryType where
  | user
  | assistant
  | tool_call
  | tool_result
deriving DecidableEq

/-- One line item of the conversation log (`ChatEntry` of
`src/agent/grok-agent.ts` as used by the chat interface).  `isStreaming`
defaults to `false`, matching an absent (`undefined`) flag. -/
structure ChatEntry where
  type : EntryType
  content : String
  timestamp : Nat
  isStreaming : Bool := false
  toolCalls : Option (List GrokToolCall) := none
  toolCall : Option GrokToolCall := none
  toolResult : Option ToolResult := none
deriving DecidableEq

/-- The payload of a pending confirmation dialog
(`ConfirmationOptions` of `src/utils/confirmation-service.ts`). -/
structure ConfirmationOptions where
  operation : String
  filename : String
  showVSCodeOpen : Option Bool := none
  content : Option String := none
deriving DecidableEq

/-- One chunk of the agent's stream, as discriminated by the `switch` in
`processInitialMessage`.  String payloads collapse `undefined` to `""`
(see the module conventions); `tokenCount`, `toolCalls`, `toolCall` and
`toolResult` keep their optionality because the code tests them. -/
inductive StreamChunk where
  | content (text : String)
  | completion (text : String)
  | token_count (n : Option Nat)
  | tool_calls (calls : Option (List GrokToolCall))
  | tool_result (call : Option GrokToolCall) (res : Option ToolResult)
  | done
deriving DecidableEq

/-- Combined React state and closure-local state of
`ChatInterfaceWithAgent` / `processInitialMessage`.

`confirmationOptions` is the live React state that the confirmation
dialog renders from (set by the `confirmation-requested` subscriber,
cleared by `handleConfirmation`/`handleRejection`).

`capturedConfirmationOptions` is the value of that state captured by the
`processInitialMessage` closure when its effect ran (deps
`[initialMessage, agent]`, so on mount): the `if (confirmationOptions)
return` guard inside `flushUpdates` reads this stale capture, not the
live state.  Later `setConfirmationOptions` calls rebind only the live
state; the in-flight closure keeps the mount-time value, which is `none`
in every run where the confirmation arises mid-stream. -/
structure StreamState where
  chatHistory : List ChatEntry
  isProcessing : Bool
  isStreaming : Bool
  tokenCount : Nat
  processingTime : Nat
  processingStartTime : Nat
  confirmationOptions : Option ConfirmationOptions
  capturedConfirmationOptions : Option ConfirmationOptions
  streamingEntry : Option ChatEntry
  accumulatedContent : String
  lastTokenCount : Nat
  pendingToolCalls : Option (List GrokToolCall)
  pendingToolResults : List (GrokToolCall × ToolResult)
  lastUpdateTime : Nat
deriving DecidableEq

/-- JS template interpolation of a possibly-undefined string:
`undefined` prints as `"undefined"`. -/
def jsTemplateStr (o : Option String) : String := o.getD "undefined"

/-- JS `a || b` on two possibly-undefined strings: `a` wins unless it is
falsy (`undefined` or `""`). -/
def jsOrStr (a b : Option String) : Option String :=
  match a with
  | some s => if s = "" then b else some s
  | none => b

/-- Description text for a tool-call entry, from the `switch` on
`toolCall.function.name` inside `flushUpdates` (lines 268-294 of
`chat-interface.tsx`).  An unparseable `arguments` string (the JS `catch`)
yields the generic description. -/
def describeToolCall (tc : GrokToolCall) : String :=
  match tc.function.arguments with
  | none => "Using " ++ tc.function.name
  | some args =>
    match tc.function.name with
    | "create_file" => "Creating file: " ++ jsTemplateStr (jsOrStr args.path args.file_path)
    | "str_replace_editor" => "Editing file: " ++ jsTemplateStr (jsOrStr args.path args.file_path)
    | "view_file" => "Reading file: " ++ jsTemplateStr (jsOrStr args.path args.file_path)
    | "bash" =>
      match args.command with
      | none => "Running command: undefined"
      | some cmd =>
        "Running command: " ++ cmd.take 60 ++ (if cmd.length > 60 then "..." else "")
    | "search" => "Searching for: " ++ jsTemplateStr args.query
    | _ => "Using " ++ tc.function.name

/-- Display content of a converted tool-result entry (lines 320-330 of
`chat-interface.tsx`): successful output is previewed up to 200
characters with an ellipsis marker, an empty or absent successful output
shows the success marker, failures show the error prefixed with the
failure marker, with the JS `error || "Unknown error"` fallback firing
on an absent or empty (falsy) error message. -/
def formatToolResultContent (r : ToolResult) : String :=
  if r.success then
    let output := r.output.getD ""
    if output.length > 200 then output.take 200 ++ "..."
    else if output ≠ "" then output
    else "✓ Success"
  else
    let err := r.error.getD ""
    "✗ Error: " ++ (if err ≠ "" then err else "Unknown error")

/-- The tool-call entry pushed per announced call (lines 296-302). -/
def toolCallEntry (tc : GrokToolCall) (now : Nat) : ChatEntry :=
  { type := .tool_call
    content := describeToolCall tc
    timestamp := now
    toolCall := some tc }

/-- The `findIndex(entry => entry.isStreaming)` lookup followed by appending
`accumulatedContent` to the found entry (lines 238-247); a missing index
(JS `-1`) leaves the history unchanged. -/
def appendToStreamingEntry (h : List ChatEntry) (acc : String) : List ChatEntry :=
  match h.findIdx? (fun e => e.isStreaming) with
  | none => h
  | some i =>
    match h[i]? with
    | none => h
    | some e => h.set i { e with content := e.content ++ acc }

/-- The `findIndex(entry => entry.isStreaming)` lookup followed by marking the found
entry complete and tagging it with the announced calls (lines 254-264). -/
def markStreamingComplete (h : List ChatEntry) (calls : List GrokToolCall) : List ChatEntry :=
  match h.findIdx? (fun e => e.isStreaming) with
  | none => h
  | some i =>
    match h[i]? with
    | none => h
    | some e => h.set i { e with isStreaming := false, toolCalls := some calls }

/-- The predicate of the `pendingToolResults.find` call (lines 314-318):
the entry is a tool call whose `toolCall?.id` equals the result's call id
(`undefined === id` is `false`). -/
def toolResultMatches (e : ChatEntry) (r : GrokToolCall × ToolResult) : Bool :=
  e.type == .tool_call &&
    (match e.toolCall with
     | some tc => tc.id == r.1.id
     | none => false)

/-- The `newHistory.map` of the pending-tool-results block (lines
308-340): streaming entries lose their flag, matching tool-call entries
are converted in place to tool-result entries. -/
def applyToolResults (pending : List (GrokToolCall × ToolResult)) (h : List ChatEntry) : List ChatEntry :=
  h.map fun e =>
    if e.isStreaming then { e with isStreaming := false }
    else
      match pending.find? (toolResultMatches e) with
      | some r =>
        { e with
          type := .tool_result
          content := formatToolResultContent r.2
          toolResult := some r.2 }
      | none => e

/-- Accumulated-content block of the `setChatHistory` updater (lines
224-250): with no streaming entry yet, push a fresh one holding the
buffer; otherwise append the buffer to the existing streaming entry.  The
buffer is cleared either way. -/
def flushContent (s : StreamState) (now : Nat) : StreamState :=
  if s.accumulatedContent ≠ "" then
    match s.streamingEntry with
    | none =>
      let e : ChatEntry :=
        { type := .assistant
          content := s.accumulatedContent
          timestamp := now
          isStreaming := true }
      { s with
        chatHistory := s.chatHistory ++ [e]
        streamingEntry := some e
        accumulatedContent := "" }
    | some _ =>
      { s with
        chatHistory := appendToStreamingEntry s.chatHistory s.accumulatedContent
        accumulatedContent := "" }
  else s

/-- Pending-tool-calls block (lines 252-305): mark the streaming entry
complete, append one tool-call entry per announced call, clear the
pending batch and the streaming-entry reference. -/
def flushToolCalls (s : StreamState) (now : Nat) : StreamState :=
  match s.pendingToolCalls with
  | some calls =>
    { s with
      chatHistory :=
        markStreamingComplete s.chatHistory calls ++ calls.map (toolCallEntry · now)
      streamingEntry := none
      pendingToolCalls := none }
  | none => s

/-- Pending-tool-results block (lines 307-343). -/
def flushToolResults (s : StreamState) : StreamState :=
  if s.pendingToolResults.isEmpty then s
  else
    { s with
      chatHistory := applyToolResults s.pendingToolResults s.chatHistory
      streamingEntry := none
      pendingToolResults := [] }

/-- The `flushUpdates` closure (lines 213-354): throttled to one commit per 250 ms,
then guarded by the closure's capture of `confirmationOptions` (see
`StreamState`); when neither check fires it commits the three buffered
blocks, publishes the last token count and records the commit time. -/
def flushUpdates (s : StreamState) (now : Nat) : StreamState :=
  if now - s.lastUpdateTime < 250 then s
  else if s.capturedConfirmationOptions.isSome then s
  else
    let s1 := flushToolResults (flushToolCalls (flushContent s now) now)
    { s1 with
      tokenCount := if s1.lastTokenCount ≠ 0 then s1.lastTokenCount else s1.tokenCount
      lastUpdateTime := now }

/-- One iteration of the `for await` chunk loop (lines 356-410): the
`switch` on the chunk type followed by the unconditional trailing
`flushUpdates()`. -/
def processChunk (s : StreamState) (c : StreamChunk) (now : Nat) : StreamState :=
  let s' :=
    match c with
    | .content text =>
      if text ≠ "" then { s with accumulatedContent := s.accumulatedContent ++ text } else s
    | .completion text =>
      if text ≠ "" then
        let sf := flushUpdates s now
        let completionEntry : ChatEntry :=
          { type := .assistant, content := text, timestamp := now }
        { sf with chatHistory := sf.chatHistory ++ [completionEntry] }
      else s
    | .token_count n =>
      match n with
      | some k => { s with lastTokenCount := k }
      | none => s
    | .tool_calls calls =>
      match calls with
      | some l => { s with pendingToolCalls := some l }
      | none => s
    | .tool_result call res =>
      match call, res with
      | some tc, some tr => { s with pendingToolResults := s.pendingToolResults ++ [(tc, tr)] }
      | _, _ => s
    | .done => flushUpdates s now
  flushUpdates s' now

/-- The whole chunk loop over a timed chunk sequence. -/
def processChunks (s : StreamState) (chunks : List (StreamChunk × Nat)) : StreamState :=
  chunks.foldl (fun st ct => processChunk st ct.1 ct.2) s

/-- The map of lines 415-419 clearing every per-entry streaming flag. -/
def clearStreamingFlags (h : List ChatEntry) : List ChatEntry :=
  h.map fun e => if e.isStreaming then { e with isStreaming := false } else e

/-- Normal termination of `processInitialMessage` (lines 412-421 plus the
trailing lines 434-435): final flush attempt, conditional clearing of
per-entry streaming flags, then the UI flags. -/
def finishStream (s : StreamState) (now : Nat) : StreamState :=
  let s1 := flushUpdates s now
  let s2 :=
    if s1.streamingEntry.isSome then
      { s1 with chatHistory := clearStreamingFlags s1.chatHistory }
    else s1
  { s2 with isStreaming := false, isProcessing := false, processingStartTime := 0 }

/-- The `catch` block of `processInitialMessage` (lines 422-432 plus
434-435): append one assistant entry holding the error text, clear the UI
flags. -/
def failStream (s : StreamState) (errorMessage : String) (now : Nat) : StreamState :=
  let errorEntry : ChatEntry :=
    { type := .assistant, content := "Error: " ++ errorMessage, timestamp := now }
  let s1 := { s with chatHistory := s.chatHistory ++ [errorEntry] }
  { s1 with isStreaming := false, isProcessing := false, processingStartTime := 0 }

/-- The user entry prepended before processing starts (lines 191-196). -/
def initialUserEntry (msg : String) (t0 : Nat) : ChatEntry :=
  { type := .user, content := msg, timestamp := t0 }

/-- State at the top of `processInitialMessage` (lines 189-211): the
user's entry in the history, processing and streaming flags raised, all
session buffers empty, `lastUpdateTime` initialised to the current
clock.  `conf` is the confirmation state at the moment the effect ran:
the closure capture starts equal to the live state (both are `none` on
mount, the only way the effect fires). -/
def initState (msg : String) (conf : Option ConfirmationOptions) (t0 : Nat) : StreamState :=
  { chatHistory := [initialUserEntry msg t0]
    isProcessing := true
    isStreaming := true
    tokenCount := 0
    processingTime := 0
    processingStartTime := 0
    confirmationOptions := conf
    capturedConfirmationOptions := conf
    streamingEntry := none
    accumulatedContent := ""
    lastTokenCount := 0
    pendingToolCalls := none
    pendingToolResults := []
    lastUpdateTime := t0 }

/-- A complete, normally terminated run of `processInitialMessage`. -/
def runStream (msg : String) (conf : Option ConfirmationOptions) (t0 : Nat)
    (chunks : List (StreamChunk × Nat)) (tEnd : Nat) : StreamState :=
  finishStream (processChunks (initState msg conf t0) chunks) tEnd

/-- A run of `processInitialMessage` interrupted by a stream error after
the given chunks were consumed. -/
def runStreamWithError (msg : String) (conf : Option ConfirmationOptions) (t0 : Nat)
    (chunks : List (StreamChunk × Nat)) (errorMessage : String) (tErr : Nat) : StreamState :=
  failStream (processChunks (initState msg conf t0) chunks) errorMessage tErr

/-- The `handleRejection` callback (lines 491-507): dismiss the dialog and reset every
in-flight processing flag to its idle value.  The call into the
confirmation service is external to this state. -/
def handleRejection (s : StreamState) : StreamState :=
  { s with
    confirmationOptions := none
    isProcessing := false
    isStreaming := false
    tokenCount := 0
    processingTime := 0
    processingStartTime := 0 }

/-- The `confirmation-requested` subscriber (lines 442-448): a request
from the confirmation service sets the live confirmation state, making
the dialog pending.  The capture held by an in-flight
`processInitialMessage` closure is unaffected. -/
def handleConfirmationRequest (s : StreamState) (options : ConfirmationOptions) : StreamState :=
  { s with confirmationOptions := some options }

/-- Role discriminator of the OpenAI-compatible output messages built by
`processPromptHeadless` (`src/index.ts`). -/
inductive MessageRole where
  | user
  | assistant
  | tool
deriving DecidableEq

/-- One OpenAI-compatible message object as printed (one JSON object per
line) by `processPromptHeadless`. -/
structure OutMessage where
  role : MessageRole
  content : String
  tool_calls : Option (List GrokToolCall) := none
  tool_call_id : Option String := none
deriving DecidableEq

/-- Messages contributed by one chat entry in the conversion loop of
`processPromptHeadless` (lines 148-188 of `src/index.ts`): user and
assistant entries yield one message (the assistant one tagged with its
tool calls when a non-empty batch is present), a tool-result entry yields
one `tool` message only when it carries its originating call, and every
other entry (in particular a tool-call entry) yields nothing. -/
def entryMessages (e : ChatEntry) : List OutMessage :=
  match e.type with
  | .user => [{ role := .user, content := e.content }]
  | .assistant =>
    let base : OutMessage := { role := .assistant, content := e.content }
    match e.toolCalls with
    | some tcs =>
      if tcs.length > 0 then [{ base with tool_calls := some tcs }] else [base]
    | none => [base]
  | .tool_result =>
    match e.toolCall with
    | some tc => [{ role := .tool, content := e.content, tool_call_id := some tc.id }]
    | none => []
  | .tool_call => []

/-- The full message list printed by `processPromptHeadless`, one line per
element. -/
def headlessMessages (entries : List ChatEntry) : List OutMessage :=
  entries.flatMap entryMessages

/-- Number of log entries currently flagged as streaming. -/
def countStreaming (h : List ChatEntry) : Nat :=
  (h.filter fun e => e.isStreaming).length

theorem countStreaming_nil : countStreaming [] = 0 := rfl

theorem countStreaming_cons (e : ChatEntry) (h : List ChatEntry) :
    countStreaming (e :: h) = (if e.isStreaming then 1 else 0) + countStreaming h := by
  simp only [countStreaming, List.filter_cons]
  by_cases hs : e.isStreaming <;> simp [hs, Nat.add_comm]

theorem countStreaming_append (h h' : List ChatEntry) :
    countStreaming (h ++ h') = countStreaming h + countStreaming h' := by
  simp [countStreaming, List.filter_append]

theorem countStreaming_set (h : List ChatEntry) (i : Nat) (e e' : ChatEntry)
    (hg : h[i]? = some e) :
    countStreaming (h.set i e') + (if e.isStreaming then 1 else 0)
      = countStreaming h + (if e'.isStreaming then 1 else 0) := by
  induction h generalizing i with
  | nil => simp at hg
  | cons a t ih =>
    cases i with
    | zero =>
      rw [List.getElem?_cons_zero, Option.some.injEq] at hg
      subst hg
      rw [List.set_cons_zero, countStreaming_cons, countStreaming_cons]
      split_ifs <;> omega
    | succ n =>
      rw [List.getElem?_cons_succ] at hg
      rw [List.set_cons_succ, countStreaming_cons, countStreaming_cons]
      have := ih n hg
      omega

theorem countStreaming_eq_zero_of_findIdx?_none (h : List ChatEntry)
    (hf : h.findIdx? (fun e => e.isStreaming) = none) : countStreaming h = 0 := by
  rw [List.findIdx?_eq_none_iff] at hf
  induction h with
  | nil => rfl
  | cons a t ih =>
    rw [countStreaming_cons]
    have ha := hf a (by simp)
    have ht := ih fun x hx => hf x (by simp [hx])
    rw [ha, ht]
    simp

theorem findIdx?_streaming_spec (h : List ChatEntry) (i : Nat)
    (hf : h.findIdx? (fun e => e.isStreaming) = some i) :
    ∃ e, h[i]? = some e ∧ e.isStreaming = true := by
  rw [List.findIdx?_eq_some_iff_getElem] at hf
  obtain ⟨hlt, hp, _⟩ := hf
  exact ⟨h[i], by simp [List.getElem?_eq_getElem hlt], by simpa using hp⟩

theorem countStreaming_appendToStreamingEntry (h : List ChatEntry) (acc : String) :
    countStreaming (appendToStreamingEntry h acc) = countStreaming h := by
  unfold appendToStreamingEntry
  cases hf : h.findIdx? (fun e => e.isStreaming) with
  | none => rfl
  | some i =>
    obtain ⟨e, hg, hs⟩ := findIdx?_streaming_spec h i hf
    simp only [hg]
    have hset := countStreaming_set h i e { e with content := e.content ++ acc } hg
    simp only [] at hset ⊢
    omega

theorem countStreaming_markStreamingComplete (h : List ChatEntry) (calls : List GrokToolCall)
    (hle : countStreaming h ≤ 1) :
    countStreaming (markStreamingComplete h calls) = 0 := by
  unfold markStreamingComplete
  cases hf : h.findIdx? (fun e => e.isStreaming) with
  | none => exact countStreaming_eq_zero_of_findIdx?_none h hf
  | some i =>
    obtain ⟨e, hg, hs⟩ := findIdx?_streaming_spec h i hf
    simp only [hg]
    have hset := countStreaming_set h i e
      { e with isStreaming := false, toolCalls := some calls } hg
    simp [hs] at hset
    omega

theorem countStreaming_toolCallEntries (calls : List GrokToolCall) (now : Nat) :
    countStreaming (calls.map (toolCallEntry · now)) = 0 := by
  induction calls with
  | nil => rfl
  | cons c t ih =>
    rw [List.map_cons, countStreaming_cons, ih]
    simp [toolCallEntry]

theorem countStreaming_applyToolResults (p : List (GrokToolCall × ToolResult))
    (h : List ChatEntry) :
    countStreaming (applyToolResults p h) = 0 := by
  induction h with
  | nil => rfl
  | cons a t ih =>
    rw [applyToolResults, List.map_cons]
    rw [applyToolResults] at ih
    rw [countStreaming_cons, ih]
    by_cases hs : a.isStreaming
    · simp [hs]
    · cases hfind : p.find? (toolResultMatches a) <;> simp [hs, hfind]

theorem countStreaming_clearStreamingFlags (h : List ChatEntry) :
    countStreaming (clearStreamingFlags h) = 0 := by
  induction h with
  | nil => rfl
  | cons a t ih =>
    rw [clearStreamingFlags, List.map_cons]
    rw [clearStreamingFlags] at ih
    rw [countStreaming_cons, ih]
    by_cases hs : a.isStreaming <;> simp [hs]

/-- Coupled invariant of the streaming session: at most one log entry is
flagged as streaming, and with no live `streamingEntry` reference none
is. -/
def StreamInv (s : StreamState) : Prop :=
  countStreaming s.chatHistory ≤ 1 ∧
    (s.streamingEntry = none → countStreaming s.chatHistory = 0)

theorem streamInv_flushContent (s : StreamState) (now : Nat) (hs : StreamInv s) :
    StreamInv (flushContent s now) := by
  obtain ⟨h1, h2⟩ := hs
  unfold flushContent
  split
  · cases hse : s.streamingEntry with
    | none =>
      have h0 := h2 hse
      refine ⟨?_, fun hn => by simp at hn⟩
      rw [countStreaming_append, h0, countStreaming_cons, countStreaming_nil]
      simp
    | some prev =>
      refine ⟨?_, fun hn => by simp [hse] at hn⟩
      rw [countStreaming_appendToStreamingEntry]
      exact h1
  · exact ⟨h1, h2⟩

theorem streamInv_flushToolCalls (s : StreamState) (now : Nat) (hs : StreamInv s) :
    StreamInv (flushToolCalls s now) := by
  obtain ⟨h1, h2⟩ := hs
  unfold flushToolCalls
  split
  · constructor
    · rw [countStreaming_append, countStreaming_markStreamingComplete _ _ h1,
        countStreaming_toolCallEntries]
      omega
    · intro _
      rw [countStreaming_append, countStreaming_markStreamingComplete _ _ h1,
        countStreaming_toolCallEntries]
  · exact ⟨h1, h2⟩

theorem streamInv_flushToolResults (s : StreamState) (hs : StreamInv s) :
    StreamInv (flushToolResults s) := by
  unfold flushToolResults
  split
  · exact hs
  · exact ⟨by rw [countStreaming_applyToolResults]; omega,
      fun _ => countStreaming_applyToolResults _ _⟩

theorem streamInv_flushUpdates (s : StreamState) (now : Nat) (hs : StreamInv s) :
    StreamInv (flushUpdates s now) := by
  unfold flushUpdates
  split
  · exact hs
  split
  · exact hs
  · exact streamInv_flushToolResults _ (streamInv_flushToolCalls _ now
      (streamInv_flushContent _ now hs))


theorem streamInv_of_eq (s s' : StreamState)
    (hh : s'.chatHistory = s.chatHistory) (hse : s'.streamingEntry = s.streamingEntry)
    (hs : StreamInv s) : StreamInv s' := by
  obtain ⟨h1, h2⟩ := hs
  exact ⟨hh ▸ h1, fun hn => hh ▸ h2 (hse ▸ hn)⟩

theorem streamInv_append_entry (s : StreamState) (e : ChatEntry)
    (he : e.isStreaming = false) (hs : StreamInv s) :
    StreamInv { s with chatHistory := s.chatHistory ++ [e] } := by
  obtain ⟨h1, h2⟩ := hs
  constructor
  · rw [countStreaming_append, countStreaming_cons, countStreaming_nil, he]
    simp
    omega
  · intro hn
    have h0 := h2 hn
    rw [countStreaming_append, countStreaming_cons, countStreaming_nil, he, h0]
    simp

theorem streamInv_processChunk (s : StreamState) (c : StreamChunk) (now : Nat)
    (hs : StreamInv s) : StreamInv (processChunk s c now) := by
  cases c with
  | content text =>
    rw [processChunk.eq_def]
    apply streamInv_flushUpdates
    dsimp only []
    split
    · exact streamInv_of_eq _ _ rfl rfl hs
    · exact hs
  | completion text =>
    rw [processChunk.eq_def]
    apply streamInv_flushUpdates
    dsimp only []
    split
    · exact streamInv_append_entry _ _ rfl (streamInv_flushUpdates _ _ hs)
    · exact hs
  | token_count n =>
    rw [processChunk.eq_def]
    apply streamInv_flushUpdates
    cases n
    · exact hs
    · exact streamInv_of_eq _ _ rfl rfl hs
  | tool_calls calls =>
    rw [processChunk.eq_def]
    apply streamInv_flushUpdates
    cases calls
    · exact hs
    · exact streamInv_of_eq _ _ rfl rfl hs
  | tool_result call res =>
    rw [processChunk.eq_def]
    apply streamInv_flushUpdates
    cases call <;> cases res
    · exact hs
    · exact hs
    · exact hs
    · exact streamInv_of_eq _ _ rfl rfl hs
  | done =>
    rw [processChunk.eq_def]
    exact streamInv_flushUpdates _ _ (streamInv_flushUpdates _ _ hs)

theorem streamInv_processChunks (s : StreamState) (l : List (StreamChunk × Nat))
    (hs : StreamInv s) : StreamInv (processChunks s l) := by
  induction l generalizing s with
  | nil => exact hs
  | cons ct t ih => exact ih _ (streamInv_processChunk _ _ _ hs)

theorem streamInv_initState (msg : String) (conf : Option ConfirmationOptions) (t0 : Nat) :
    StreamInv (initState msg conf t0) := by
  constructor <;> simp [initState, countStreaming, initialUserEntry, List.filter]

theorem streamInv_finishStream (s : StreamState) (now : Nat) (hs : StreamInv s) :
    StreamInv (finishStream s now) := by
  unfold finishStream
  have h1 := streamInv_flushUpdates s now hs
  dsimp only []
  split
  · constructor
    · simp [countStreaming_clearStreamingFlags]
    · intro _
      simp [countStreaming_clearStreamingFlags]
  · exact streamInv_of_eq _ _ rfl rfl h1

theorem streamInv_failStream (s : StreamState) (err : String) (now : Nat)
    (hs : StreamInv s) : StreamInv (failStream s err now) := by
  have happ := streamInv_append_entry s
    { type := .assistant, content := "Error: " ++ err, timestamp := now } rfl hs
  exact streamInv_of_eq _ _ rfl rfl happ

/-- C1 (failing-input evaluation): the claim says that after the stream is
fully consumed the in-progress assistant entry's content equals the
concatenation of all content-chunk payloads.  On the session starting at
clock 1000, a single content chunk "Hi" arriving at 1010 followed by
`done` at 1020 and the final flush at 1030 leaves the conversation log
without any assistant entry at all — every flush attempt falls inside the
250 ms throttle window, so the buffered payload is never committed and
is dropped when the session ends. -/
theorem finalFlushThrottledLosesContent :
    (runStream "hello" none 1000 [(.content "Hi", 1010), (.done, 1020)] 1030).chatHistory
      = [initialUserEntry "hello" 1000] ∧
    (processChunks (initState "hello" none 1000)
        [(.content "Hi", 1010), (.done, 1020)]).accumulatedContent = "Hi" :=
  ⟨rfl, rfl⟩

/-- C2 (failing-input evaluation): the claim says a `done` chunk forces an
immediate flush even when less than 250 ms has elapsed since the previous
flush.  After a flush commits at clock 250, a content chunk "cd" at 255
and a `done` chunk at 260 leave the buffered "cd" uncommitted and the
last-commit time unchanged: the `done` handler's flush attempt is subject
to the same throttle and performs no flush. -/
theorem doneChunkDoesNotForceFlush :
    (processChunks (initState "hello" none 0)
        [(.content "ab", 250), (.content "cd", 255), (.done, 260)]).chatHistory
      = [initialUserEntry "hello" 0,
         { type := .assistant, content := "ab", timestamp := 250, isStreaming := true }] ∧
    (processChunks (initState "hello" none 0)
        [(.content "ab", 250), (.content "cd", 255), (.done, 260)]).accumulatedContent
      = "cd" ∧
    (processChunks (initState "hello" none 0)
        [(.content "ab", 250), (.content "cd", 255), (.done, 260)]).lastUpdateTime = 250 :=
  ⟨rfl, rfl, rfl⟩

/-- Failing-input scenario for the confirmation-suppression claim: a
session that starts with no confirmation pending (the only way the
`processInitialMessage` effect fires, so the closure captures `none`),
whose tool-calls chunk at clock 250 commits a tool-call entry, after
which the confirmation service raises a request and the live
confirmation state becomes pending. -/
def staleGuardScenarioPending : StreamState :=
  handleConfirmationRequest
    (processChunks (initState "delete file.txt" none 0)
      [(.tool_calls (some [⟨"1", ⟨"bash", some ⟨none, none, some "rm file.txt", none⟩⟩⟩]), 250)])
    ⟨"Run command", "rm file.txt", none, none⟩

/-- C3 (failing-input evaluation): the claim says that while the
confirmation-options state is non-null no ChatEntry is appended or
mutated, for every chunk type.  But the guard inside `flushUpdates`
reads the closure's stale capture of `confirmationOptions`, which is
`none` whenever the confirmation arises mid-stream — the only reachable
way.  In the scenario a content chunk arriving 350 ms after the last
commit, while the dialog is pending, is flushed anyway: an assistant
entry is appended to the log (length 2 to 3) and the confirmation is
still pending afterwards.  (A `completion` chunk would append even under
an effective guard, since its case calls `setChatHistory` directly.) -/
theorem staleClosureIgnoresPendingConfirmation :
    staleGuardScenarioPending.confirmationOptions.isSome = true ∧
    staleGuardScenarioPending.capturedConfirmationOptions = none ∧
    staleGuardScenarioPending.chatHistory.length = 2 ∧
    (processChunk staleGuardScenarioPending
        (.content "Removing the file") 600).chatHistory.length = 3 ∧
    (processChunk staleGuardScenarioPending
        (.content "Removing the file") 600).confirmationOptions.isSome = true :=
  ⟨rfl, rfl, rfl, rfl, rfl⟩

/-- C4: at every observation point — after any number of processed chunks,
and after normal or error termination — at most one entry of the
conversation log has its `isStreaming` flag set. -/
theorem atMostOneStreamingEntry (msg : String) (conf : Option ConfirmationOptions)
    (t0 : Nat) (chunks : List (StreamChunk × Nat)) (tEnd : Nat) (err : String) :
    countStreaming (processChunks (initState msg conf t0) chunks).chatHistory ≤ 1 ∧
    countStreaming (runStream msg conf t0 chunks tEnd).chatHistory ≤ 1 ∧
    countStreaming (runStreamWithError msg conf t0 chunks err tEnd).chatHistory ≤ 1 :=
  ⟨(streamInv_processChunks _ chunks (streamInv_initState msg conf t0)).1,
   (streamInv_finishStream _ tEnd
      (streamInv_processChunks _ chunks (streamInv_initState msg conf t0))).1,
   (streamInv_failStream _ err tEnd
      (streamInv_processChunks _ chunks (streamInv_initState msg conf t0))).1⟩

/-- C5: converting pending tool results never changes the length of the
conversation log, and every (non-streaming) tool-call entry whose
correlation id matches a pending result is converted in place — at its
own position — into a tool-result entry that keeps its tool-call
reference; no new entry is appended for the result. -/
theorem toolResultConvertedInPlace (pending : List (GrokToolCall × ToolResult))
    (h : List ChatEntry) (i : Nat) (e : ChatEntry)
    (hget : h[i]? = some e) (hstream : e.isStreaming = false)
    (hmatch : (pending.find? (toolResultMatches e)).isSome = true) :
    (applyToolResults pending h).length = h.length ∧
    ∃ e', (applyToolResults pending h)[i]? = some e' ∧
      e'.type = EntryType.tool_result ∧ e'.toolCall = e.toolCall := by
  constructor
  · simp [applyToolResults]
  · rw [Option.isSome_iff_exists] at hmatch
    obtain ⟨r, hr⟩ := hmatch
    rw [applyToolResults, List.getElem?_map, hget]
    refine ⟨_, rfl, ?_, ?_⟩ <;> simp [hstream, hr]

/-- Witness for C5: a two-entry log whose tool-call entry for call id "1"
is converted in place by a matching successful result. -/
theorem toolResultConvertedInPlace_witness :
    (applyToolResults
        [(⟨"1", ⟨"bash", some ⟨none, none, some "ls", none⟩⟩⟩, ⟨true, some "ok", none⟩)]
        [initialUserEntry "u" 0,
         toolCallEntry ⟨"1", ⟨"bash", some ⟨none, none, some "ls", none⟩⟩⟩ 5]).length
      = [initialUserEntry "u" 0,
         toolCallEntry ⟨"1", ⟨"bash", some ⟨none, none, some "ls", none⟩⟩⟩ 5].length ∧
    ∃ e', (applyToolResults
        [(⟨"1", ⟨"bash", some ⟨none, none, some "ls", none⟩⟩⟩, ⟨true, some "ok", none⟩)]
        [initialUserEntry "u" 0,
         toolCallEntry ⟨"1", ⟨"bash", some ⟨none, none, some "ls", none⟩⟩⟩ 5])[1]?
        = some e' ∧
      e'.type = EntryType.tool_result ∧
      e'.toolCall = (toolCallEntry ⟨"1", ⟨"bash", some ⟨none, none, some "ls", none⟩⟩⟩ 5).toolCall :=
  toolResultConvertedInPlace
    [(⟨"1", ⟨"bash", some ⟨none, none, some "ls", none⟩⟩⟩, ⟨true, some "ok", none⟩)]
    [initialUserEntry "u" 0,
     toolCallEntry ⟨"1", ⟨"bash", some ⟨none, none, some "ls", none⟩⟩⟩ 5]
    1 (toolCallEntry ⟨"1", ⟨"bash", some ⟨none, none, some "ls", none⟩⟩⟩ 5)
    rfl rfl rfl

/-- C6 (failing-input evaluation): the claim says that after a mid-stream
error no entry remains marked in-progress.  On the run whose content
chunk "Hi" at clock 250 was committed (creating a streaming entry) and
whose stream then raises "boom", the error handler appends the error
entry and clears the UI streaming flag, but the committed entry keeps
`isStreaming = true` in the log: the catch block never clears per-entry
flags. -/
theorem streamErrorLeavesStreamingEntry :
    (runStreamWithError "hello" none 0 [(.content "Hi", 250)] "boom" 300).chatHistory
      = [initialUserEntry "hello" 0,
         { type := .assistant, content := "Hi", timestamp := 250, isStreaming := true },
         { type := .assistant, content := "Error: boom", timestamp := 300 }] ∧
    countStreaming
      (runStreamWithError "hello" none 0 [(.content "Hi", 250)] "boom" 300).chatHistory = 1 ∧
    (runStreamWithError "hello" none 0 [(.content "Hi", 250)] "boom" 300).isStreaming = false :=
  ⟨rfl, rfl, rfl⟩

/-- C7 (counterexample): the claim says every successful output of 200
characters or fewer is displayed in full; the empty output is such an
output, yet it is displayed as the success marker instead of itself. -/
theorem emptyOutputNotDisplayedInFull :
    formatToolResultContent ⟨true, some "", none⟩ = "✓ Success" ∧
    formatToolResultContent ⟨true, some "", none⟩ ≠ "" :=
  ⟨rfl, by decide⟩

/-- C7 (amended): for a successful result, an output longer than 200
characters displays as its first 200 characters plus an ellipsis marker,
a non-empty output of at most 200 characters displays in full, and an
empty or absent output displays the success marker; a failed result with
non-empty error message `e` displays `e` prefixed with the failure
marker, and a failed result with empty or absent error message displays
the failure marker with the "Unknown error" fallback. -/
theorem toolResultDisplayRules (r : ToolResult) :
    (r.success = true → 200 < (r.output.getD "").length →
      formatToolResultContent r = (r.output.getD "").take 200 ++ "...") ∧
    (r.success = true → (r.output.getD "").length ≤ 200 → r.output.getD "" ≠ "" →
      formatToolResultContent r = r.output.getD "") ∧
    (r.success = true → r.output.getD "" = "" →
      formatToolResultContent r = "✓ Success") ∧
    (∀ e, r.success = false → r.error = some e → e ≠ "" →
      formatToolResultContent r = "✗ Error: " ++ e) ∧
    (r.success = false → (r.error = none ∨ r.error = some "") →
      formatToolResultContent r = "✗ Error: Unknown error") := by
  obtain ⟨suc, out, err⟩ := r
  refine ⟨?_, ?_, ?_, ?_, ?_⟩
  · intro hs hlen
    subst hs
    simp only [formatToolResultContent]
    rw [if_true]
    rw [if_pos hlen]
  · intro hs hlen hne
    subst hs
    have hlen2 : (out.getD "").length ≤ 200 := hlen
    simp only [formatToolResultContent]
    rw [if_true]
    rw [if_neg (by omega), if_pos hne]
  · intro hs hout
    subst hs
    have hout2 : out.getD "" = "" := hout
    simp only [formatToolResultContent]
    rw [if_true]
    rw [if_neg (by rw [hout2]; simp), if_neg (by simp [hout2])]
  · intro e hs he hne
    subst hs
    have he2 : err = some e := he
    simp [formatToolResultContent, he2, hne]
  · intro hs herr
    subst hs
    rcases herr with h | h
    · have h2 : err = none := h
      subst h2
      rfl
    · have h2 : err = some "" := h
      subst h2
      rfl

/-- The 500-character output used to witness the truncation branch of the
C7 display rules. -/
def longToolOutput : String := String.mk (List.replicate 500 'x')

set_option maxRecDepth 8000 in
/-- Witness for the amended C7 at a successful result whose 500-character
output is truncated to 200 characters plus the ellipsis marker. -/
theorem toolResultDisplayRules_witness :
    formatToolResultContent ⟨true, some longToolOutput, none⟩
      = ((some longToolOutput).getD "").take 200 ++ "..." :=
  (toolResultDisplayRules ⟨true, some longToolOutput, none⟩).1 rfl
    (by rw [show ((some longToolOutput).getD "") = longToolOutput from rfl,
          show longToolOutput.length = 500 from rfl]
        omega)

/-- C8: rejecting a pending confirmation resets every in-flight processing
flag to its idle value — processing and streaming flags false, token
count 0, processing time 0, processing start timestamp cleared — and
dismisses the dialog. -/
theorem rejectionResetsProcessingState (s : StreamState) :
    (handleRejection s).isProcessing = false ∧
    (handleRejection s).isStreaming = false ∧
    (handleRejection s).tokenCount = 0 ∧
    (handleRejection s).processingTime = 0 ∧
    (handleRejection s).processingStartTime = 0 ∧
    (handleRejection s).confirmationOptions = none :=
  ⟨rfl, rfl, rfl, rfl, rfl, rfl⟩

/-- C9: a successful tool result whose output is absent or the empty
string displays the literal success marker rather than an empty
preview. -/
theorem emptyOutputShowsSuccessMarker (r : ToolResult) (hs : r.success = true)
    (ho : r.output = none ∨ r.output = some "") :
    formatToolResultContent r = "✓ Success" := by
  obtain ⟨suc, out, err⟩ := r
  subst hs
  rcases ho with h | h <;>
    · have h2 : out = _ := h
      subst h2
      rfl

/-- Witness for C9 at a successful result with absent output. -/
theorem emptyOutputShowsSuccessMarker_witness :
    formatToolResultContent ⟨true, none, none⟩ = "✓ Success" :=
  emptyOutputShowsSuccessMarker ⟨true, none, none⟩ rfl (Or.inl rfl)

theorem entryMessages_length (e : ChatEntry) :
    (entryMessages e).length =
      (if e.type == EntryType.user then 1 else 0) +
      (if e.type == EntryType.assistant then 1 else 0) +
      (if e.type == EntryType.tool_result && e.toolCall.isSome then 1 else 0) := by
  unfold entryMessages
  cases he : e.type
  · simp
  · cases htc : e.toolCalls
    · simp
    · dsimp only []
      split <;> simp
  · simp
  · cases htc : e.toolCall <;> simp

/-- C10: in headless mode the printed message list has exactly one
message per user entry, one per assistant entry and one per tool-result
entry carrying its tool-call reference; tool-call entries and tool-result
entries without that reference contribute nothing. -/
theorem headlessMessageCount (entries : List ChatEntry) :
    (headlessMessages entries).length =
      (entries.filter fun e => e.type == EntryType.user).length +
      (entries.filter fun e => e.type == EntryType.assistant).length +
      (entries.filter fun e => e.type == EntryType.tool_result && e.toolCall.isSome).length := by
  induction entries with
  | nil => rfl
  | cons e t ih =>
    rw [headlessMessages, List.flatMap_cons, List.length_append]
    rw [headlessMessages] at ih
    rw [ih, entryMessages_length]
    simp only [List.filter_cons]
    by_cases h1 : (e.type == EntryType.user) = true <;>
      by_cases h2 : (e.type == EntryType.assistant) = true <;>
        by_cases h3 : (e.type == EntryType.tool_result && e.toolCall.isSome) = true <;>
          simp [h1, h2, h3] <;> omega
